import Mathlib

/-!
Verification development for the p2ra matching-and-inference engine.

The development shallowly embeds the measurement/value abstraction
(`Variable` and its date/location resolution), the specificity-weighted
matching procedure (`match_quality`, `lookup_variables`), the model builder
(`build_model`) with its fit-state machine, the population-weighted
averaging of estimates, the taxid grouping of estimates, and the schema of
the summarized coefficient table produced by `fit_panel.summarize_output`.

The implementation modules `pathogen_properties.py`, `stats.py`, `mgs.py`
and `pathogens/__init__.py` are not part of the source tree available here
(only their tests in `test.py`, the pathogen data modules and
`fit_panel.py` are), so the corresponding definitions are modelled from
the specification, as marked in their doc comments.  `fit_panel.py` is
available and its summarization schema is embedded from the source.
-/

namespace P2RA

abbrev Str := String

/-- A calendar date, as Python's `datetime.date`: year, month (1-12),
day (1-31). -/
structure Date where
  year : Nat
  month : Nat
  day : Nat
deriving DecidableEq, Repr

/-- Gregorian leap-year rule, as Python's `calendar.isleap`. -/
def isLeapYear (y : Nat) : Bool :=
  (y % 4 == 0 && y % 100 != 0) || (y % 400 == 0)

/-- Number of days in a month, as Python's `calendar.monthrange`. -/
def daysInMonth (y m : Nat) : Nat :=
  if m = 2 then (if isLeapYear y then 29 else 28)
  else if m = 4 ∨ m = 6 ∨ m = 9 ∨ m = 11 then 30
  else 31

/-- Days in year `y` before the first day of month `m`. -/
def daysBeforeMonth (y m : Nat) : Nat :=
  (List.range (m - 1)).foldl (fun acc i => acc + daysInMonth y (i + 1)) 0

/-- Proleptic-Gregorian ordinal of a date (a strictly monotone day count,
as Python's `datetime.date.toordinal`), used to measure day distances. -/
def Date.toOrdinal (d : Date) : Nat :=
  365 * (d.year - 1) + (d.year - 1) / 4 - (d.year - 1) / 100 + (d.year - 1) / 400
    + daysBeforeMonth d.year d.month + d.day

/-- Day distance from date `d` to the inclusive range `[s, e]`: `0` inside
the range, otherwise the distance to the nearest boundary, as computed by
subtracting `datetime.date` objects. -/
def dateRangeDistance (s e d : Date) : Nat :=
  if s.toOrdinal ≤ d.toOrdinal ∧ d.toOrdinal ≤ e.toOrdinal then 0
  else min (max s.toOrdinal d.toOrdinal - min s.toOrdinal d.toOrdinal)
           (max e.toOrdinal d.toOrdinal - min e.toOrdinal d.toOrdinal)

/-! ### Date-string parsing -/

/-- The numeric value of a decimal digit character, `none` on anything
else. -/
def digitVal (c : Char) : Option Nat :=
  if '0' ≤ c ∧ c ≤ '9' then some (c.toNat - 48) else none

/-- The character for a decimal digit. -/
def digitChar (d : Nat) : Char :=
  Char.ofNat (48 + d % 10)

/-- Reads a run of characters as a decimal number; fails if any character
is not a digit. -/
def parseDigits (cs : List Char) : Option Nat :=
  cs.foldl
    (fun acc c =>
      match acc, digitVal c with
      | some n, some d => some (n * 10 + d)
      | _, _ => none)
    (some 0)

/-- Splits a character list on `-` separators (as Python's
`str.split("-")`): `splitDash "a-bc"` is `[[a],[b,c]]`. -/
def splitDash : List Char → List (List Char)
  | [] => [[]]
  | c :: cs =>
    if c = '-' then [] :: splitDash cs
    else
      match splitDash cs with
      | g :: gs => (c :: g) :: gs
      | [] => [[c]]

/-- Modelled from the spec (the date parsing of `pathogen_properties.py`
is not in the source tree): date strings come at three granularities —
`YYYY` expands to the first/last day of the year, `YYYY-MM` to the
first/last day of the month (respecting leap years), `YYYY-MM-DD` to a
single-day range; any other format is rejected. -/
def parse_date (cs : List Char) : Option (Date × Date) :=
  match splitDash cs with
  | [ys] =>
    if ys.length = 4 then
      (parseDigits ys).map fun y => (⟨y, 1, 1⟩, ⟨y, 12, 31⟩)
    else none
  | [ys, ms] =>
    if ys.length = 4 ∧ ms.length = 2 then
      match parseDigits ys, parseDigits ms with
      | some y, some m =>
        if 1 ≤ m ∧ m ≤ 12 then
          some (⟨y, m, 1⟩, ⟨y, m, daysInMonth y m⟩)
        else none
      | _, _ => none
    else none
  | [ys, ms, ds] =>
    if ys.length = 4 ∧ ms.length = 2 ∧ ds.length = 2 then
      match parseDigits ys, parseDigits ms, parseDigits ds with
      | some y, some m, some d =>
        if 1 ≤ m ∧ m ≤ 12 ∧ 1 ≤ d ∧ d ≤ daysInMonth y m then
          some (⟨y, m, d⟩, ⟨y, m, d⟩)
        else none
      | _, _, _ => none
    else none
  | _ => none

/-- Fixed-width decimal rendering of a number (`fmtFixed 4 2019` is
`"2019"`, `fmtFixed 2 3` is `"03"`). -/
def fmtFixed : Nat → Nat → List Char
  | 0, _ => []
  | w + 1, n => fmtFixed w (n / 10) ++ [digitChar (n % 10)]

/-- The `YYYY` form of a year. -/
def fmtYear (y : Nat) : List Char := fmtFixed 4 y

/-- The `YYYY-MM` form of a year and month. -/
def fmtYearMonth (y m : Nat) : List Char :=
  fmtFixed 4 y ++ '-' :: fmtFixed 2 m

/-- The `YYYY-MM-DD` form of a full date. -/
def fmtFull (y m d : Nat) : List Char :=
  fmtFixed 4 y ++ '-' :: (fmtFixed 2 m ++ '-' :: fmtFixed 2 d)

lemma digitVal_digitChar {d : Nat} (h : d < 10) : digitVal (digitChar d) = some d := by
  interval_cases d <;> decide

lemma digitChar_ne_dash (d : Nat) : digitChar d ≠ '-' := by
  have h10 : d % 10 < 10 := Nat.mod_lt _ (by norm_num)
  interval_cases h : d % 10 <;> simp [digitChar, h]

lemma fmtFixed_length (w n : Nat) : (fmtFixed w n).length = w := by
  induction w generalizing n with
  | zero => rfl
  | succ w ih => simp [fmtFixed, ih]

lemma dash_not_mem_fmtFixed (w n : Nat) : '-' ∉ fmtFixed w n := by
  induction w generalizing n with
  | zero => simp [fmtFixed]
  | succ w ih =>
    simp only [fmtFixed, List.mem_append, List.mem_singleton]
    rintro (h | h)
    · exact ih _ h
    · exact digitChar_ne_dash _ h.symm

lemma parseDigits_fmtFixed (w n : Nat) : parseDigits (fmtFixed w n) = some (n % 10 ^ w) := by
  induction w generalizing n with
  | zero => simp [fmtFixed, parseDigits, Nat.mod_one]
  | succ w ih =>
    have hfold := ih (n / 10)
    simp only [parseDigits] at hfold ⊢
    rw [fmtFixed, List.foldl_append, hfold, List.foldl_cons, List.foldl_nil,
      digitVal_digitChar (Nat.mod_lt _ (by norm_num))]
    have : n % 10 ^ (w + 1) = n / 10 % 10 ^ w * 10 + n % 10 := by
      rw [pow_succ, mul_comm (10 ^ w) 10, Nat.mod_mul, mul_comm]
      omega
    rw [this]

lemma splitDash_no_dash {cs : List Char} (h : '-' ∉ cs) : splitDash cs = [cs] := by
  induction cs with
  | nil => rfl
  | cons c cs ih =>
    simp only [List.mem_cons, not_or] at h
    have hc : ¬c = '-' := fun hc => h.1 hc.symm
    simp only [splitDash, ih h.2, if_neg hc]

lemma splitDash_append {a : List Char} (b : List Char) (h : '-' ∉ a) :
    splitDash (a ++ '-' :: b) = a :: splitDash b := by
  induction a with
  | nil => simp [splitDash]
  | cons c cs ih =>
    simp only [List.mem_cons, not_or] at h
    have hc : ¬c = '-' := fun hc => h.1 hc.symm
    simp only [List.cons_append, splitDash, List.append_eq, ih h.2, if_neg hc]

/-! ### Measurement Value (`Variable`) -/

/-- A resolved spatial applicability: optional country, state, county. -/
structure Location where
  country : Option Str
  state : Option Str
  county : Option Str
deriving DecidableEq, Repr

/-- The unlocated location (no field set). -/
def Location.unset : Location := ⟨none, none, none⟩

/-- The tagged construction-error variants of the Measurement Value
constructor (the spec's result-type view of the `Variable` validation
exceptions). -/
inductive ConstructionError where
  | conflictingDates
  | badDateFormat
  | invertedRange
  | locationConflict
deriving DecidableEq, Repr

/-- A constructed Measurement Value: its resolved date range (or `none`
when no date was ever set), its resolved location, and an optional taxid
restricting which taxonomic group the estimate covers. -/
structure Variable where
  dates : Option (Date × Date)
  location : Location
  taxid : Option Nat
deriving DecidableEq, Repr

/-- Modelled from the spec (the `Variable` date validation of
`pathogen_properties.py` is not in the source tree): a point `date` plus
either of `start_date`/`end_date` is a construction error, as is exactly
one of `start_date`/`end_date`; valid strings resolve the range; an
inverted range (`end < start`) is a construction error; no date at all
resolves to `none` ("unspecified"); a `date_source` inherits that
source's resolved dates. -/
def resolve_dates_own (date start_date end_date : Option (List Char)) :
    Except ConstructionError (Option (Date × Date)) :=
  match date, start_date, end_date with
  | some _, some _, _ => .error .conflictingDates
  | some _, _, some _ => .error .conflictingDates
  | none, some _, none => .error .conflictingDates
  | none, none, some _ => .error .conflictingDates
  | some d, none, none =>
    match parse_date d with
    | some r => .ok (some r)
    | none => .error .badDateFormat
  | none, some s, some e =>
    match parse_date s, parse_date e with
    | some rs, some re =>
      if re.2.toOrdinal < rs.1.toOrdinal then .error .invertedRange
      else .ok (some (rs.1, re.2))
    | _, _ => .error .badDateFormat
  | none, none, none => .ok none

/-- The resolved dates of a new `Variable`: the validated own date
arguments, overridden by the designated `date_source`'s resolved dates
when one is given. -/
def resolve_dates (date start_date end_date : Option (List Char))
    (date_source : Option Variable) :
    Except ConstructionError (Option (Date × Date)) :=
  match resolve_dates_own date start_date end_date with
  | .error e => .error e
  | .ok own =>
    match date_source with
    | some src => .ok src.dates
    | none => .ok own

/-- Modelled from the spec (the `Variable` location resolution of
`pathogen_properties.py` is not in the source tree): directly set fields
win; otherwise a designated `location_source` wins; otherwise all inputs
must agree on a common location, and a disagreement is a construction
error. -/
def resolve_location (country state county : Option Str)
    (inputs : List Variable) (location_source : Option Variable) :
    Except ConstructionError Location :=
  if country.isSome || state.isSome || county.isSome then
    .ok ⟨country, state, county⟩
  else
    match location_source with
    | some src => .ok src.location
    | none =>
      match inputs.map (fun v => v.location) with
      | [] => .ok Location.unset
      | l :: rest =>
        if rest.all (fun l2 => l2 = l) then .ok l
        else .error .locationConflict

/-- Modelled from the spec (the `Variable` constructor of
`pathogen_properties.py` is not in the source tree): validates and
resolves the date and location keyword arguments, failing with a tagged
construction error on conflicting date forms, bad date strings, inverted
ranges, or unresolved location conflicts among inputs. -/
def mkVariable (date start_date end_date : Option (List Char))
    (date_source : Option Variable) (country state county : Option Str)
    (inputs : List Variable) (location_source : Option Variable)
    (taxid : Option Nat) : Except ConstructionError Variable :=
  match resolve_dates date start_date end_date date_source with
  | .error e => .error e
  | .ok ds =>
    match resolve_location country state county inputs location_source with
    | .error e => .error e
    | .ok loc => .ok ⟨ds, loc, taxid⟩

/-- `Variable.get_dates`: the resolved `(start, end)` pair, `none`
modelling the precondition (assertion) failure when no date information
was ever set. -/
def get_dates (v : Variable) : Option (Date × Date) := v.dates

/-- `Variable.get_date`: the single date of a point range, `none`
modelling the precondition (assertion) failure when dates are unset or
`start ≠ end`. -/
def get_date (v : Variable) : Option Date :=
  match v.dates with
  | some (s, e) => if s = e then some s else none
  | none => none

/-- `Variable.get_location`: the resolved `(country, state, county)`
fields. -/
def get_location (v : Variable) : Location := v.location

/-! ### Matching Engine -/

/-- Sample enrichment category, as `mgs.Enrichment`. -/
inductive Enrichment where
  | viral
  | panel
deriving DecidableEq, Repr

/-- Per-sample attributes supplied by the sequencing dataset accessor, as
`mgs.SampleAttributes`: country, optional state/county, a single date,
raw read count, a free-form location label, an optional enrichment
category. -/
structure SampleAttributes where
  country : Str
  state : Option Str
  county : Option Str
  date : Date
  reads : Nat
  location : Str
  enrichment : Option Enrichment
deriving DecidableEq, Repr

/-- Whether a candidate's optional location field disagrees with the
sample's corresponding field: a specified-but-unequal field is a
mismatch; an unspecified field never is. -/
def fieldMismatch (cand samp : Option Str) : Bool :=
  match cand with
  | none => false
  | some c => !(samp == some c)

/-- Modelled from the spec (`stats.py` is not in the source tree): the
"near miss" date tolerance in days.  The spec fixes it only to
single-digit days (accepting a one-day miss, rejecting a 17-day and a
31-day miss), so the largest single-digit value is used. -/
def MAX_DAYS_OFF : Nat := 9

/-- Modelled from the spec (`stats.match_quality` is not in the source
tree): any location field the candidate specifies must equal the
sample's, else "no match" (`none`); the location bonus is +10 for a
specified matching state and +20 more for a specified matching county;
the temporal penalty is 0 inside the candidate's resolved inclusive
range, minus the day-distance to the nearest boundary within the
tolerance, and "no match" beyond the tolerance regardless of the
location score. -/
def match_quality (sample : SampleAttributes) (v : Variable) : Option Int :=
  if fieldMismatch v.location.country (some sample.country) then none
  else if fieldMismatch v.location.state sample.state then none
  else if fieldMismatch v.location.county sample.county then none
  else
    let bonus : Int :=
      (if v.location.state.isSome then 10 else 0) +
      (if v.location.county.isSome then 20 else 0)
    match v.dates with
    | none => none
    | some (s, e) =>
      let dist := dateRangeDistance s e sample.date
      if dist = 0 then some bonus
      else if dist ≤ MAX_DAYS_OFF then some (bonus - (dist : Int))
      else none

/-- Modelled from the spec (`stats.lookup_variables` is not in the source
tree): score every candidate with `match_quality`, drop the "no match"
ones, and keep exactly the candidates tied for the maximum remaining
score (empty when nothing matches). -/
def lookup_variables (sample : SampleAttributes) (candidates : List Variable) :
    List Variable :=
  let scored := candidates.filterMap fun v =>
    (match_quality sample v).map fun q => (q, v)
  match scored with
  | [] => []
  | (q0, _) :: rest =>
    let best := (rest.map fun p => p.1).foldl max q0
    (scored.filter fun p => p.1 = best).map fun p => p.2

/-- The maximum score attained by any matching candidate (`none` when no
candidate matches). -/
def maxScore (sample : SampleAttributes) (candidates : List Variable) :
    Option Int :=
  match candidates.filterMap (fun v => match_quality sample v) with
  | [] => none
  | q0 :: rest => some (rest.foldl max q0)

/-! ### Estimates: population-weighted averaging and taxid grouping -/

/-- A `Prevalence` estimate's numeric payload (infections per 100k),
with its provenance-carrying base. -/
structure Prevalence where
  infections_per_100k : ℚ
  base : Variable
deriving DecidableEq, Repr

/-- A `Population` estimate's numeric payload (headcount), with its
provenance-carrying base. -/
structure Population where
  people : ℚ
  base : Variable
deriving DecidableEq, Repr

/-- Numerator and denominator accumulator of the population-weighted
average: a single pass over the `(estimate, population)` pairs summing
`value·weight` and `weight`. -/
def weightedSums : List (Prevalence × Population) → ℚ × ℚ
  | [] => (0, 0)
  | (e, p) :: rest =>
    let (n, d) := weightedSums rest
    (e.infections_per_100k * p.people + n, p.people + d)

/-- Modelled from the spec (`Prevalence.weightedAverageByPopulation` of
`pathogen_properties.py` is not in the source tree): one `Prevalence`
whose value is `Σ(value_i × population_i) / Σ(population_i)`; fails
(`none`) on an empty input set.  The result's provenance base is derived
from the first pair's estimate. -/
def weightedAverageByPopulation (pairs : List (Prevalence × Population)) :
    Option Prevalence :=
  match pairs with
  | [] => none
  | (e0, _) :: _ =>
    let (n, d) := weightedSums pairs
    some ⟨n / d, e0.base⟩

/-- Pathogen characteristics, as `pathogen_properties.PathogenChars`:
the pathogen's set of taxonomic identifiers. -/
structure PathogenChars where
  taxids : Finset Nat
deriving DecidableEq

/-- The taxid-group key of one estimate: the singleton of its own taxid
when it has one, the pathogen's full taxid set otherwise. -/
def estimate_key (pc : PathogenChars) (v : Variable) : Finset Nat :=
  match v.taxid with
  | some t => {t}
  | none => pc.taxids

/-- Modelled from the spec and `test.py`'s `test_by_taxids`
(`pathogen_properties.by_taxids` is not in the source tree): groups the
estimates by their taxid-group key, one group per distinct key. -/
def by_taxids (pc : PathogenChars) (estimates : List Variable) :
    List (Finset Nat × List Variable) :=
  ((estimates.map (estimate_key pc)).dedup).map fun k =>
    (k, estimates.filter fun e => estimate_key pc e = k)

/-! ### Sequencing dataset accessor and model builder -/

/-- A bioproject name. -/
abbrev Bioproject := Str

/-- A sample identifier. -/
abbrev Sample := Str

/-- The sequencing dataset accessor, as `mgs.MGSData`: per bioproject a
keyed list of sample attributes, and per sample the total read count and
the viral read count summed over a taxid set. -/
structure MGSData where
  attrs : Bioproject → List (Sample × SampleAttributes)
  total_reads : Sample → Nat
  viral_reads : Sample → Finset Nat → Nat

/-- `MGSData.sample_attributes(bioproject, enrichment)`: the bioproject's
samples, filtered to the given enrichment category when one is given. -/
def MGSData.sample_attributes (d : MGSData) (bp : Bioproject)
    (enrichment : Option Enrichment) : List (Sample × SampleAttributes) :=
  (d.attrs bp).filter fun p =>
    match enrichment with
    | none => true
    | some e => p.2.enrichment = some e

/-- Python `dict.update` on keyed lists: entries of `old` whose key
reappears in `new` are replaced, fresh keys of `new` are appended. -/
def dictUpdate (old new : List (Sample × SampleAttributes)) :
    List (Sample × SampleAttributes) :=
  (old.filter fun p => ¬ (new.map fun q => q.1).contains p.1) ++ new

/-- The union (later bioprojects overriding earlier ones, as successive
`dict.update` calls) of the enrichment-filtered sample attributes over a
list of bioprojects. -/
def all_sample_attributes (d : MGSData) (bps : List Bioproject)
    (enrichment : Option Enrichment) : List (Sample × SampleAttributes) :=
  bps.foldl (fun acc bp => dictUpdate acc (d.sample_attributes bp enrichment)) []

/-- One row of a model's input table: the sample, its total and viral
read counts, the matched predictor(s), and the location grouping key. -/
structure ModelRow where
  sample : Sample
  total_reads : Nat
  viral_reads : Nat
  predictors : List Variable
  location : Str
deriving DecidableEq, Repr

/-- A built model, as `stats.Model`: the input table, the random seed,
and the fit products (`none` until `fit_model` runs). -/
structure Model where
  data : List ModelRow
  random_seed : Nat
  fit : Option (List ℚ)
  output_df : Option (List ℚ)
deriving DecidableEq, Repr

/-- Modelled from the spec (`stats.build_model` is not in the source
tree): the input rows `build_model` assembles — one row per sample of
the union of the filtered sample attributes over the given bioprojects,
with read counts and matched predictors per sample. -/
def model_rows (d : MGSData) (bps : List Bioproject)
    (predictors : List Variable) (taxids : Finset Nat)
    (enrichment : Option Enrichment) : List ModelRow :=
  (all_sample_attributes d bps enrichment).map fun (s, a) =>
    ModelRow.mk s (d.total_reads s) (d.viral_reads s taxids)
      (lookup_variables a predictors) a.location

/-- Modelled from the spec (`stats.build_model` is not in the source
tree): returns the "no model" sentinel (`none`) when no sample has any
matched predictor, the built (unfit) model over the assembled rows
otherwise. -/
def build_model (d : MGSData) (bps : List Bioproject)
    (predictors : List Variable) (taxids : Finset Nat) (random_seed : Nat)
    (enrichment : Option Enrichment) : Option Model :=
  if (model_rows d bps predictors taxids enrichment).all
      fun r => r.predictors.isEmpty then none
  else some (Model.mk (model_rows d bps predictors taxids enrichment)
    random_seed none none)

/-! ### Bayesian fitter state machine -/

/-- The fitter's state error: an accessor was called before `fit_model`. -/
inductive StateError where
  | notFitted
deriving DecidableEq, Repr

/-- Modelled from the spec (the MCMC of `stats.Model.fit_model` is not in
the source tree, and simulation-based sampling is abstracted): one
deterministic pseudo-draw of `θ` per posterior sample per input row,
derived from the model's random seed. -/
def posteriorDraws (seed n : Nat) (rows : List ModelRow) : List ℚ :=
  (List.range n).flatMap fun i => rows.map fun _ => ((seed + i : Nat) : ℚ)

/-- Modelled from the spec (`stats.Model.fit_model` is not in the source
tree): runs inference and transitions the model from the built state to
the fit state by filling the posterior coefficient table and the
output-by-sample table. -/
def fit_model (m : Model) (num_samples num_chains : Nat) : Model :=
  let draws := posteriorDraws m.random_seed (num_samples * num_chains) m.data
  { m with fit := some draws, output_df := some draws }

/-- `Model.get_coefficients`: the posterior coefficient table, a state
error before `fit_model` has run. -/
def get_coefficients (m : Model) : Except StateError (List ℚ) :=
  match m.fit with
  | none => .error .notFitted
  | some f => .ok f

/-- `Model.get_output_by_sample`: the fitted per-sample table, a state
error before `fit_model` has run. -/
def get_output_by_sample (m : Model) : Except StateError (List ℚ) :=
  match m.output_df with
  | none => .error .notFitted
  | some o => .ok o

/-! ### Summarized coefficients schema (`fit_panel.py`) -/

/-- The column labels of the statistics produced by pandas
`describe(percentiles=ps)` on a numeric column: always `count`, `mean`,
`std`, `min`, then one percentile column per requested percentile
(labelled as a percentage), then `max`.  The percentiles argument is
given here in percent (`[5, 25, 50, 75, 95]` stands for
`[0.05, 0.25, 0.5, 0.75, 0.95]`). -/
def describeColumns (percentiles : List Nat) : List Str :=
  ["count", "mean", "std", "min"] ++
    (percentiles.map fun p => toString p ++ "%") ++ ["max"]

/-- The grouping key columns of `fit_panel.summarize_output`: the
`groupby` argument in the source. -/
def summarize_output_keys : List Str :=
  ["pathogen", "tidy_name", "taxids", "predictor_type", "study", "location"]

/-- The value columns of `fit_panel.summarize_output`: the statistics of
`describe(percentiles=[0.05, 0.25, 0.5, 0.75, 0.95])` applied to the
grouped `ra_at_1in100` column. -/
def summarize_output_value_columns : List Str :=
  describeColumns [5, 25, 50, 75, 95]

/-- The field separator `fit_panel.start` passes to `to_csv` when
serializing the summary (`sep="\t"`). -/
def summarize_output_sep : Char := '\t'

/-! ### Parsing lemmas -/

lemma parse_date_year {y : Nat} (hy : y < 10000) :
    parse_date (fmtYear y) = some (⟨y, 1, 1⟩, ⟨y, 12, 31⟩) := by
  unfold parse_date fmtYear
  rw [splitDash_no_dash (dash_not_mem_fmtFixed 4 y)]
  simp [fmtFixed_length, parseDigits_fmtFixed, Nat.mod_eq_of_lt hy]

lemma parse_date_year_month {y m : Nat} (hy : y < 10000) (hm1 : 1 ≤ m)
    (hm2 : m ≤ 12) :
    parse_date (fmtYearMonth y m) = some (⟨y, m, 1⟩, ⟨y, m, daysInMonth y m⟩) := by
  unfold parse_date fmtYearMonth
  rw [splitDash_append _ (dash_not_mem_fmtFixed 4 y),
    splitDash_no_dash (dash_not_mem_fmtFixed 2 m)]
  have hmm : m % 10 ^ 2 = m := Nat.mod_eq_of_lt (by omega)
  have hmm2 : m % 100 = m := Nat.mod_eq_of_lt (by omega)
  simp [fmtFixed_length, parseDigits_fmtFixed, Nat.mod_eq_of_lt hy, hmm, hmm2,
    hm1, hm2]

lemma parse_date_full {y m d : Nat} (hy : y < 10000) (hm1 : 1 ≤ m)
    (hm2 : m ≤ 12) (hd1 : 1 ≤ d) (hd2 : d ≤ daysInMonth y m) :
    parse_date (fmtFull y m d) = some (⟨y, m, d⟩, ⟨y, m, d⟩) := by
  unfold parse_date fmtFull
  rw [splitDash_append _ (dash_not_mem_fmtFixed 4 y),
    splitDash_append _ (dash_not_mem_fmtFixed 2 m),
    splitDash_no_dash (dash_not_mem_fmtFixed 2 d)]
  have hdm : daysInMonth y m ≤ 31 := by
    unfold daysInMonth
    split
    · split <;> omega
    · split <;> omega
  have hmm : m % 10 ^ 2 = m := Nat.mod_eq_of_lt (by omega)
  have hmm2 : m % 100 = m := Nat.mod_eq_of_lt (by omega)
  have hdd : d % 10 ^ 2 = d := Nat.mod_eq_of_lt (by omega)
  have hdd2 : d % 100 = d := Nat.mod_eq_of_lt (by omega)
  simp [fmtFixed_length, parseDigits_fmtFixed, Nat.mod_eq_of_lt hy, hmm, hmm2,
    hdd, hdd2, hm1, hm2, hd1, hd2]

/-! ### Claim theorems -/

/-- C5: every year string `YYYY` resolves via `get_dates` to
(January 1, December 31) of that year; every `YYYY-MM` string resolves to
the (first day, last day) of that month, respecting leap years so that
`2020-02` ends on February 29 while `2019-02` ends on February 28; every
full `YYYY-MM-DD` resolves to a single-day range; and strings in any
other format, such as `2020-1` or `2020/01/01`, are rejected. -/
theorem date_parsing_spec (y m d : Nat) (hy : y < 10000) (hm1 : 1 ≤ m)
    (hm2 : m ≤ 12) (hd1 : 1 ≤ d) (hd2 : d ≤ daysInMonth y m) :
    (∃ v, mkVariable (some (fmtYear y)) none none none none none none [] none
        none = .ok v ∧ get_dates v = some (⟨y, 1, 1⟩, ⟨y, 12, 31⟩)) ∧
    (∃ v, mkVariable (some (fmtYearMonth y m)) none none none none none none
        [] none none = .ok v ∧
        get_dates v = some (⟨y, m, 1⟩, ⟨y, m, daysInMonth y m⟩)) ∧
    daysInMonth 2020 2 = 29 ∧ daysInMonth 2019 2 = 28 ∧
    (∃ v, mkVariable (some (fmtFull y m d)) none none none none none none []
        none none = .ok v ∧ get_dates v = some (⟨y, m, d⟩, ⟨y, m, d⟩)) ∧
    mkVariable (some "2020-1".toList) none none none none none none [] none
      none = .error .badDateFormat ∧
    mkVariable (some "2020/01/01".toList) none none none none none none []
      none none = .error .badDateFormat := by
  refine ⟨⟨⟨some (⟨y, 1, 1⟩, ⟨y, 12, 31⟩), Location.unset, none⟩, ?_, rfl⟩,
    ⟨⟨some (⟨y, m, 1⟩, ⟨y, m, daysInMonth y m⟩), Location.unset, none⟩, ?_, rfl⟩,
    rfl, rfl,
    ⟨⟨some (⟨y, m, d⟩, ⟨y, m, d⟩), Location.unset, none⟩, ?_, rfl⟩, rfl, rfl⟩
  · simp [mkVariable, resolve_dates, resolve_dates_own, resolve_location,
      parse_date_year hy, Location.unset]
  · simp [mkVariable, resolve_dates, resolve_dates_own, resolve_location,
      parse_date_year_month hy hm1 hm2, Location.unset]
  · simp [mkVariable, resolve_dates, resolve_dates_own, resolve_location,
      parse_date_full hy hm1 hm2 hd1 hd2, Location.unset]

/-- Witness for C5 at `2020-02-29` (a leap day). -/
theorem date_parsing_spec_witness :
    (2020 < 10000 ∧ 1 ≤ 2 ∧ 2 ≤ 12 ∧ 1 ≤ 29 ∧ 29 ≤ daysInMonth 2020 2) ∧
    (∃ v, mkVariable (some (fmtYear 2020)) none none none none none none []
        none none = .ok v ∧
        get_dates v = some (⟨2020, 1, 1⟩, ⟨2020, 12, 31⟩)) := by
  refine ⟨by decide, ?_⟩
  exact (date_parsing_spec 2020 2 29 (by decide) (by decide) (by decide)
    (by decide) (by decide)).1

/-- C6: constructing a Measurement Value with both a point date and a
start/end pair, or with only one of `start_date`/`end_date`, always
fails; construction also fails when the resolved end date precedes the
resolved start date; constructing with no date at all succeeds, but then
`get_dates` fails (the precondition failure), and `get_date` fails
whenever the resolved start differs from the resolved end. -/
theorem variable_date_construction_spec (pd ps pe : List Char)
    (oe os : Option (List Char)) (dsrc lsrc : Option Variable)
    (c s co : Option Str) (ins : List Variable) (tx : Option Nat)
    (rs re : Date × Date) (hs : parse_date ps = some rs)
    (he : parse_date pe = some re) (hlt : re.2.toOrdinal < rs.1.toOrdinal) :
    mkVariable (some pd) (some ps) oe dsrc c s co ins lsrc tx =
      .error .conflictingDates ∧
    mkVariable (some pd) os (some pe) dsrc c s co ins lsrc tx =
      .error .conflictingDates ∧
    mkVariable none (some ps) none dsrc c s co ins lsrc tx =
      .error .conflictingDates ∧
    mkVariable none none (some pe) dsrc c s co ins lsrc tx =
      .error .conflictingDates ∧
    mkVariable none (some ps) (some pe) dsrc c s co ins lsrc tx =
      .error .invertedRange ∧
    (mkVariable none none none none none none none [] none tx =
      .ok ⟨none, Location.unset, tx⟩ ∧
      get_dates ⟨none, Location.unset, tx⟩ = none) ∧
    (∀ v : Variable, ∀ st en : Date, v.dates = some (st, en) → st ≠ en →
      get_date v = none) := by
  refine ⟨?_, ?_, ?_, ?_, ?_, ⟨rfl, rfl⟩, ?_⟩
  · cases oe <;> rfl
  · cases os <;> rfl
  · rfl
  · rfl
  · simp [mkVariable, resolve_dates, resolve_dates_own, hs, he, hlt]
  · intro v st en hv hne
    simp [get_date, hv, hne]

/-- Witness for C6 at the test's inverted range
(`start_date="2020-01-07"`, `end_date="2020-01-06"`). -/
theorem variable_date_construction_spec_witness :
    parse_date "2020-01-07".toList =
      some (⟨2020, 1, 7⟩, ⟨2020, 1, 7⟩) ∧
    parse_date "2020-01-06".toList =
      some (⟨2020, 1, 6⟩, ⟨2020, 1, 6⟩) ∧
    (⟨2020, 1, 6⟩ : Date).toOrdinal < (⟨2020, 1, 7⟩ : Date).toOrdinal ∧
    mkVariable none (some "2020-01-07".toList) (some "2020-01-06".toList)
      none none none none [] none none = .error .invertedRange := by
  refine ⟨rfl, rfl, by decide, ?_⟩
  exact (variable_date_construction_spec "2020".toList "2020-01-07".toList
    "2020-01-06".toList none none none none none none none [] none
    (⟨2020, 1, 7⟩, ⟨2020, 1, 7⟩) (⟨2020, 1, 6⟩, ⟨2020, 1, 6⟩)
    rfl rfl (by decide)).2.2.2.2.1

/-- C7: `get_location` returns the directly set fields when they are
set; for a Variable derived from inputs, if all inputs agree it returns
the common location; if the inputs' locations conflict and no
`location_source` was designated, construction fails with the location
resolution error; and if a `location_source` was designated, the
designated source's location is returned. -/
theorem get_location_spec (c s co : Str) (v1 v2 : Variable)
    (ins : List Variable) (lsrc : Option Variable) (tx : Option Nat)
    (hagree : ∀ w ∈ ins, w.location = v1.location)
    (hconf : v2.location ≠ v1.location) :
    (∃ w, mkVariable none none none none (some c) (some s) (some co) ins
        lsrc tx = .ok w ∧ get_location w = ⟨some c, some s, some co⟩) ∧
    (∃ w, mkVariable none none none none none none none (v1 :: ins) none tx
        = .ok w ∧ get_location w = v1.location) ∧
    mkVariable none none none none none none none [v1, v2] none tx =
      .error .locationConflict ∧
    (∃ w, mkVariable none none none none none none none [v1, v2] (some v1)
        tx = .ok w ∧ get_location w = v1.location) := by
  refine ⟨⟨⟨none, ⟨some c, some s, some co⟩, tx⟩, rfl, rfl⟩,
    ⟨⟨none, v1.location, tx⟩, ?_, rfl⟩, ?_, ⟨⟨none, v1.location, tx⟩, rfl, rfl⟩⟩
  · have hall : (ins.map fun v => v.location).all fun l2 => l2 = v1.location := by
      simp only [List.all_eq_true, List.mem_map, decide_eq_true_eq]
      rintro l ⟨w, hw, rfl⟩
      exact hagree w hw
    simp [mkVariable, resolve_dates, resolve_dates_own, resolve_location, hall]
  · have : ¬ v2.location = v1.location := hconf
    simp [mkVariable, resolve_dates, resolve_dates_own, resolve_location, this]

/-- Witness for C7 at the test's conflicting locations (Ohio/Franklin
County vs California/Alameda County). -/
theorem get_location_spec_witness :
    (∀ w ∈ ([] : List Variable),
      w.location = (⟨none, ⟨some "United States", some "Ohio",
        some "Franklin County"⟩, none⟩ : Variable).location) ∧
    (⟨none, ⟨some "United States", some "California", some "Alameda County"⟩,
        none⟩ : Variable).location ≠
      (⟨none, ⟨some "United States", some "Ohio", some "Franklin County"⟩,
        none⟩ : Variable).location ∧
    mkVariable none none none none none none none
      [⟨none, ⟨some "United States", some "Ohio", some "Franklin County"⟩, none⟩,
       ⟨none, ⟨some "United States", some "California", some "Alameda County"⟩,
        none⟩] none none = .error .locationConflict := by
  refine ⟨by simp, by decide, ?_⟩
  exact (get_location_spec "United States" "Ohio" "Franklin County"
    ⟨none, ⟨some "United States", some "Ohio", some "Franklin County"⟩, none⟩
    ⟨none, ⟨some "United States", some "California", some "Alameda County"⟩, none⟩
    [] none none (by simp) (by decide)).2.2.1

lemma weightedSums_eq (pairs : List (Prevalence × Population)) :
    weightedSums pairs =
      ((pairs.map fun p => p.1.infections_per_100k * p.2.people).sum,
       (pairs.map fun p => p.2.people).sum) := by
  induction pairs with
  | nil => rfl
  | cons p rest ih => simp [weightedSums, ih]

/-- C8: for every non-empty sequence of (estimate, population) pairs,
`weightedAverageByPopulation` returns one estimate whose numeric value
equals the population-weighted mean
`Σ(value_i × population_i) / Σ(population_i)`, and it fails on an empty
input set. -/
theorem weightedAverageByPopulation_spec
    (pairs : List (Prevalence × Population)) (h : pairs ≠ []) :
    (∃ e, weightedAverageByPopulation pairs = some e ∧
      e.infections_per_100k =
        (pairs.map fun p => p.1.infections_per_100k * p.2.people).sum /
          (pairs.map fun p => p.2.people).sum) ∧
    weightedAverageByPopulation ([] : List (Prevalence × Population)) =
      none := by
  refine ⟨?_, rfl⟩
  obtain ⟨p0, rest, rfl⟩ := List.exists_cons_of_ne_nil h
  refine ⟨⟨_, p0.1.base⟩, ?_, rfl⟩
  simp only [weightedAverageByPopulation, weightedSums_eq]

/-- Witness for C8: values `[1, 2, 3, 4]` with populations
`[100000, 200000, 300000, 400000]` average to
`(1·100000 + 2·200000 + 3·300000 + 4·400000) / 1000000 = 3`. -/
theorem weightedAverageByPopulation_spec_witness :
    ([(⟨1, ⟨none, Location.unset, none⟩⟩, ⟨100000, ⟨none, Location.unset, none⟩⟩),
      (⟨2, ⟨none, Location.unset, none⟩⟩, ⟨200000, ⟨none, Location.unset, none⟩⟩),
      (⟨3, ⟨none, Location.unset, none⟩⟩, ⟨300000, ⟨none, Location.unset, none⟩⟩),
      (⟨4, ⟨none, Location.unset, none⟩⟩, ⟨400000, ⟨none, Location.unset, none⟩⟩)]
        : List (Prevalence × Population)) ≠ [] ∧
    ∃ e, weightedAverageByPopulation
      [(⟨1, ⟨none, Location.unset, none⟩⟩, ⟨100000, ⟨none, Location.unset, none⟩⟩),
       (⟨2, ⟨none, Location.unset, none⟩⟩, ⟨200000, ⟨none, Location.unset, none⟩⟩),
       (⟨3, ⟨none, Location.unset, none⟩⟩, ⟨300000, ⟨none, Location.unset, none⟩⟩),
       (⟨4, ⟨none, Location.unset, none⟩⟩, ⟨400000, ⟨none, Location.unset, none⟩⟩)]
      = some e ∧ e.infections_per_100k = 3 := by
  refine ⟨by simp, ?_⟩
  obtain ⟨⟨e, he, hv⟩, -⟩ := weightedAverageByPopulation_spec
    [(⟨1, ⟨none, Location.unset, none⟩⟩, ⟨100000, ⟨none, Location.unset, none⟩⟩),
     (⟨2, ⟨none, Location.unset, none⟩⟩, ⟨200000, ⟨none, Location.unset, none⟩⟩),
     (⟨3, ⟨none, Location.unset, none⟩⟩, ⟨300000, ⟨none, Location.unset, none⟩⟩),
     (⟨4, ⟨none, Location.unset, none⟩⟩, ⟨400000, ⟨none, Location.unset, none⟩⟩)]
    (by simp)
  refine ⟨e, he, ?_⟩
  rw [hv]
  norm_num

/-- C9 counterexample: the summarized coefficients table does not carry
exactly the value columns `mean, std, min, 5%, 25%, 50%, 75%, 95%, max`:
pandas `describe` also always emits a `count` column. -/
theorem summarize_output_columns_counterexample :
    summarize_output_value_columns ≠
      ["mean", "std", "min", "5%", "25%", "50%", "75%", "95%", "max"] ∧
    "count" ∈ summarize_output_value_columns := by
  decide

/-- C9 (amended): the summarized coefficients table is keyed by the six
columns `(pathogen, tidy_name, taxids, predictor_type, study, location)`
and carries per key exactly the value columns
`count, mean, std, min, 5%, 25%, 50%, 75%, 95%, max`, serialized
tab-separated. -/
theorem summarize_output_schema :
    summarize_output_keys =
      ["pathogen", "tidy_name", "taxids", "predictor_type", "study",
        "location"] ∧
    summarize_output_value_columns =
      ["count", "mean", "std", "min", "5%", "25%", "50%", "75%", "95%",
        "max"] ∧
    summarize_output_sep = '\t' := by
  decide

/-- C10: `by_taxids` partitions the estimates into groups keyed by
non-empty taxid sets: every group is non-empty, an estimate carrying its
own taxid lands in the group keyed by exactly that singleton, an
estimate without one lands in the group keyed by the pathogen's full
taxid set, every estimate lands in some group, and no key repeats. -/
theorem by_taxids_spec (pc : PathogenChars) (es : List Variable)
    (hpc : pc.taxids.Nonempty) :
    (∀ k g, (k, g) ∈ by_taxids pc es →
      k.Nonempty ∧ g ≠ [] ∧
      ∀ e ∈ g, e ∈ es ∧
        (∀ t, e.taxid = some t → k = {t}) ∧
        (e.taxid = none → k = pc.taxids)) ∧
    (∀ e ∈ es, ∃ k g, (k, g) ∈ by_taxids pc es ∧ e ∈ g) ∧
    ((by_taxids pc es).map fun p => p.1).Nodup := by
  refine ⟨?_, ?_, ?_⟩
  · intro k g hkg
    simp only [by_taxids, List.mem_map] at hkg
    obtain ⟨k', hk', heq⟩ := hkg
    obtain ⟨rfl, rfl⟩ := Prod.mk.injEq .. ▸ heq
    rw [List.mem_dedup, List.mem_map] at hk'
    obtain ⟨e0, he0, hkey⟩ := hk'
    refine ⟨?_, ?_, ?_⟩
    · rw [← hkey]
      unfold estimate_key
      cases e0.taxid with
      | none => exact hpc
      | some t => exact ⟨t, Finset.mem_singleton_self t⟩
    · have : e0 ∈ es.filter fun e => decide (estimate_key pc e = k') := by
        rw [List.mem_filter]
        exact ⟨he0, by simp [hkey]⟩
      intro hnil
      rw [hnil] at this
      exact List.not_mem_nil _ this
    · intro e he
      rw [List.mem_filter, decide_eq_true_eq] at he
      refine ⟨he.1, ?_, ?_⟩
      · intro t ht
        rw [← he.2]
        unfold estimate_key
        rw [ht]
      · intro ht
        rw [← he.2]
        unfold estimate_key
        rw [ht]
  · intro e he
    refine ⟨estimate_key pc e,
      es.filter fun x => decide (estimate_key pc x = estimate_key pc e),
      ?_, ?_⟩
    · simp only [by_taxids, List.mem_map]
      exact ⟨estimate_key pc e,
        List.mem_dedup.mpr (List.mem_map_of_mem _ he), rfl⟩
    · rw [List.mem_filter]
      exact ⟨he, by simp⟩
  · have : ((by_taxids pc es).map fun p => p.1) =
        (es.map (estimate_key pc)).dedup := by
      simp only [by_taxids, List.map_map]
      exact List.map_id ((es.map (estimate_key pc)).dedup)
    rw [this]
    exact (es.map (estimate_key pc)).nodup_dedup

/-- Witness for C10: rhinovirus's three-taxid pathogen characteristics
with one taxid-carrying and one taxid-free estimate. -/
theorem by_taxids_spec_witness :
    (PathogenChars.mk {147711, 147712, 463676}).taxids.Nonempty ∧
    ∀ e ∈ [(⟨none, Location.unset, some 147711⟩ : Variable),
           ⟨none, Location.unset, none⟩],
      ∃ k g, (k, g) ∈ by_taxids (PathogenChars.mk {147711, 147712, 463676})
        [⟨none, Location.unset, some 147711⟩, ⟨none, Location.unset, none⟩] ∧
        e ∈ g := by
  refine ⟨⟨147711, by decide⟩, ?_⟩
  exact (by_taxids_spec (PathogenChars.mk {147711, 147712, 463676})
    [⟨none, Location.unset, some 147711⟩, ⟨none, Location.unset, none⟩]
    ⟨147711, by decide⟩).2.1

lemma fieldMismatch_true_of {cand samp : Option Str} (h1 : cand ≠ none)
    (h2 : cand ≠ samp) : fieldMismatch cand samp = true := by
  cases cand with
  | none => exact absurd rfl h1
  | some c =>
    simp only [fieldMismatch, Bool.not_eq_eq_eq_not, Bool.not_true,
      beq_eq_false_iff_ne, ne_eq]
    intro h
    exact h2 h.symm

lemma fieldMismatch_false_of {cand samp : Option Str}
    (h : cand = none ∨ cand = samp) : fieldMismatch cand samp = false := by
  rcases h with rfl | rfl
  · rfl
  · cases cand with
    | none => rfl
    | some c => simp [fieldMismatch]

/-- The sample fixture of `test.py`'s `TestStats`: an Allegheny County,
Pennsylvania sample dated 2019-05-14. -/
def attrsEx : SampleAttributes :=
  ⟨"United States", some "Pennsylvania", some "Allegheny County",
    ⟨2019, 5, 14⟩, 100, "Loc", some .viral⟩

/-- `TestStats`'s `v1`: a country-only candidate covering all of 2019. -/
def vCountryYear : Variable :=
  ⟨some (⟨2019, 1, 1⟩, ⟨2019, 12, 31⟩), ⟨some "United States", none, none⟩,
    none⟩

/-- `TestStats`'s `v3`: a country-only candidate dated one day off the
sample. -/
def vOneDayOff : Variable :=
  ⟨some (⟨2019, 5, 15⟩, ⟨2019, 5, 15⟩), ⟨some "United States", none, none⟩,
    none⟩

/-- `TestStats`'s `v5`: a candidate matching the sample's state and
county, covering all of 2019. -/
def vFullLoc : Variable :=
  ⟨some (⟨2019, 1, 1⟩, ⟨2019, 12, 31⟩),
    ⟨some "United States", some "Pennsylvania", some "Allegheny County"⟩,
    none⟩

/-- A country-only candidate dated 31 days after the sample fixture's
date. -/
def vFarOff : Variable :=
  ⟨some (⟨2019, 6, 14⟩, ⟨2019, 6, 14⟩), ⟨some "United States", none, none⟩,
    none⟩

/-- C2: `match_quality` returns "no match" whenever the candidate
specifies a location field (country, state or county) unequal to the
sample's corresponding field, even if country matches; otherwise its
score is the location bonus (+10 for a specified matching state, +20
more for a specified matching county, +0 for country-only) plus a
temporal penalty: 0 when the sample's date falls in the resolved
inclusive range, minus the day-distance to the nearest boundary when
within tolerance, and "no match" beyond the tolerance regardless of the
location score. -/
theorem match_quality_spec (sample : SampleAttributes) (v : Variable)
    (st en : Date) (hd : v.dates = some (st, en)) :
    (v.location.country ≠ none ∧ v.location.country ≠ some sample.country →
      match_quality sample v = none) ∧
    (v.location.state ≠ none ∧ v.location.state ≠ sample.state →
      match_quality sample v = none) ∧
    (v.location.county ≠ none ∧ v.location.county ≠ sample.county →
      match_quality sample v = none) ∧
    (v.location.country = none ∨ v.location.country = some sample.country →
     v.location.state = none ∨ v.location.state = sample.state →
     v.location.county = none ∨ v.location.county = sample.county →
      (st.toOrdinal ≤ sample.date.toOrdinal ∧
          sample.date.toOrdinal ≤ en.toOrdinal →
        match_quality sample v =
          some ((if v.location.state.isSome then 10 else 0) +
            (if v.location.county.isSome then 20 else 0))) ∧
      (∀ k : Nat, dateRangeDistance st en sample.date = k → 1 ≤ k →
          k ≤ MAX_DAYS_OFF →
        match_quality sample v =
          some ((if v.location.state.isSome then 10 else 0) +
            (if v.location.county.isSome then 20 else 0) - (k : Int))) ∧
      (∀ k : Nat, dateRangeDistance st en sample.date = k →
          MAX_DAYS_OFF < k →
        match_quality sample v = none)) := by
  refine ⟨?_, ?_, ?_, ?_⟩
  · intro h
    rw [match_quality, if_pos (fieldMismatch_true_of h.1 h.2)]
  · intro h
    rw [match_quality]
    by_cases h1 : fieldMismatch v.location.country (some sample.country) = true
    · rw [if_pos h1]
    · rw [if_neg h1, if_pos (fieldMismatch_true_of h.1 h.2)]
  · intro h
    rw [match_quality]
    by_cases h1 : fieldMismatch v.location.country (some sample.country) = true
    · rw [if_pos h1]
    · rw [if_neg h1]
      by_cases h2 : fieldMismatch v.location.state sample.state = true
      · rw [if_pos h2]
      · rw [if_neg h2, if_pos (fieldMismatch_true_of h.1 h.2)]
  · intro hc hs hco
    have h1 : fieldMismatch v.location.country (some sample.country) = false :=
      fieldMismatch_false_of hc
    have h2 : fieldMismatch v.location.state sample.state = false :=
      fieldMismatch_false_of hs
    have h3 : fieldMismatch v.location.county sample.county = false :=
      fieldMismatch_false_of hco
    refine ⟨?_, ?_, ?_⟩
    · intro hin
      have hdist : dateRangeDistance st en sample.date = 0 := by
        rw [dateRangeDistance, if_pos hin]
      simp [match_quality, h1, h2, h3, hd, hdist]
    · intro k hk h1k hk9
      have hkne : ¬ dateRangeDistance st en sample.date = 0 := by omega
      simp [match_quality, h1, h2, h3, hd, hk, hkne, show k ≤ MAX_DAYS_OFF from hk9]
      omega
    · intro k hk h9k
      have hkne : ¬ dateRangeDistance st en sample.date = 0 := by
        unfold MAX_DAYS_OFF at h9k
        omega
      have hkgt : ¬ k ≤ MAX_DAYS_OFF := by omega
      simp [match_quality, h1, h2, h3, hd, hk, hkne, hkgt]
      omega

/-- Witness for C2 at the test fixture: the state+county candidate `v5`
scores the full +30 bonus on the Allegheny County sample. -/
theorem match_quality_spec_witness :
    vFullLoc.dates = some (⟨2019, 1, 1⟩, ⟨2019, 12, 31⟩) ∧
    match_quality attrsEx vFullLoc = some 30 := by
  refine ⟨rfl, ?_⟩
  have h := (match_quality_spec attrsEx vFullLoc ⟨2019, 1, 1⟩ ⟨2019, 12, 31⟩
    rfl).2.2.2 (by right; rfl) (by right; rfl) (by right; rfl)
  have h30 := h.1 (by decide)
  rw [h30]
  rfl

lemma le_foldl_max (xs : List Int) (x : Int) : x ≤ xs.foldl max x := by
  induction xs generalizing x with
  | nil => exact le_refl x
  | cons a as ih => exact le_trans (le_max_left x a) (ih (max x a))

lemma foldl_max_le_of_mem {xs : List Int} {y : Int} (x : Int) (h : y ∈ xs) :
    y ≤ xs.foldl max x := by
  induction xs generalizing x with
  | nil => cases h
  | cons a as ih =>
    rcases List.mem_cons.mp h with rfl | h2
    · exact le_trans (le_max_right x y) (le_foldl_max as (max x y))
    · exact ih (max x a) h2

lemma foldl_max_mem (xs : List Int) (x : Int) :
    xs.foldl max x = x ∨ xs.foldl max x ∈ xs := by
  induction xs generalizing x with
  | nil => left; rfl
  | cons a as ih =>
    rcases ih (max x a) with h | h
    · rw [List.foldl_cons, h]
      rcases max_cases x a with ⟨hm, _⟩ | ⟨hm, _⟩
      · left; exact hm
      · right; rw [hm]; exact List.mem_cons_self a as
    · right
      rw [List.foldl_cons]
      exact List.mem_cons_of_mem a h

lemma scored_map_fst (sample : SampleAttributes) (cs : List Variable) :
    ((cs.filterMap fun v => (match_quality sample v).map fun q => (q, v)).map
      fun p => p.1) = cs.filterMap fun v => match_quality sample v := by
  induction cs with
  | nil => rfl
  | cons v cs ih =>
    cases hm : match_quality sample v with
    | none => simp [List.filterMap_cons, hm, ih]
    | some q => simp [List.filterMap_cons, hm, ih]

lemma scored_filter_map (sample : SampleAttributes) (cs : List Variable)
    (b : Int) :
    (((cs.filterMap fun v => (match_quality sample v).map fun q => (q, v)).filter
        fun p => p.1 = b).map fun p => p.2) =
      cs.filter fun v => match_quality sample v = some b := by
  induction cs with
  | nil => rfl
  | cons v cs ih =>
    cases hm : match_quality sample v with
    | none => simp [List.filterMap_cons, List.filter_cons, hm, ih]
    | some q =>
      by_cases hq : q = b
      · subst hq
        simp [List.filterMap_cons, List.filter_cons, hm, ih]
      · simp [List.filterMap_cons, List.filter_cons, hm, hq, ih]

/-- `lookup_variables` in terms of `maxScore`: empty when nothing
matches, otherwise the candidates whose score equals the maximum. -/
lemma lookup_variables_eq_filter (sample : SampleAttributes)
    (cs : List Variable) :
    lookup_variables sample cs =
      match maxScore sample cs with
      | none => []
      | some q => cs.filter fun v => match_quality sample v = some q := by
  unfold lookup_variables maxScore
  cases hsc : cs.filterMap fun v => (match_quality sample v).map fun q => (q, v) with
  | nil =>
    have : cs.filterMap (fun v => match_quality sample v) = [] := by
      rw [← scored_map_fst, hsc]; rfl
    rw [this]
  | cons p rest =>
    obtain ⟨q0, v0⟩ := p
    have hfst : cs.filterMap (fun v => match_quality sample v) =
        q0 :: rest.map fun p => p.1 := by
      rw [← scored_map_fst, hsc]; rfl
    rw [hfst]
    simp only
    rw [← hsc, scored_filter_map]

/-- C1: `lookup_variables` discards all "no match" candidates and
returns exactly the candidates tied for the maximum remaining score
(all ties kept); it returns the empty list when no candidate matches,
in particular when every candidate's date range is 31 days away from
the sample's date. -/
theorem lookup_variables_spec (sample : SampleAttributes)
    (cs : List Variable) :
    (maxScore sample cs = none ↔ ∀ v ∈ cs, match_quality sample v = none) ∧
    (maxScore sample cs = none → lookup_variables sample cs = []) ∧
    (∀ q, maxScore sample cs = some q →
      (∃ v ∈ cs, match_quality sample v = some q) ∧
      (∀ v ∈ cs, ∀ q', match_quality sample v = some q' → q' ≤ q) ∧
      lookup_variables sample cs =
        cs.filter fun v => match_quality sample v = some q) ∧
    ((∀ v ∈ cs, ∃ st en, v.dates = some (st, en) ∧
        dateRangeDistance st en sample.date = 31) →
      lookup_variables sample cs = []) := by
  have hnone : maxScore sample cs = none ↔
      ∀ v ∈ cs, match_quality sample v = none := by
    unfold maxScore
    cases hf : cs.filterMap fun v => match_quality sample v with
    | nil =>
      simp only [true_iff]
      intro v hv
      cases hm : match_quality sample v with
      | none => rfl
      | some q =>
        have : q ∈ cs.filterMap fun v => match_quality sample v :=
          List.mem_filterMap.mpr ⟨v, hv, hm⟩
        rw [hf] at this
        cases this
    | cons q0 rest =>
      simp only [reduceCtorEq, false_iff, not_forall]
      have : q0 ∈ cs.filterMap fun v => match_quality sample v := by
        rw [hf]; exact List.mem_cons_self q0 rest
      obtain ⟨v, hv, hm⟩ := List.mem_filterMap.mp this
      exact ⟨v, hv, by rw [hm]; exact fun h => Option.noConfusion h⟩
  refine ⟨hnone, ?_, ?_, ?_⟩
  · intro h
    rw [lookup_variables_eq_filter, h]
  · intro q hq
    have hfilt : lookup_variables sample cs =
        cs.filter fun v => match_quality sample v = some q := by
      rw [lookup_variables_eq_filter, hq]
    unfold maxScore at hq
    cases hf : cs.filterMap fun v => match_quality sample v with
    | nil => rw [hf] at hq; cases hq
    | cons q0 rest =>
      rw [hf] at hq
      have hq' : (rest.foldl max q0) = q := Option.some.injEq .. ▸ hq
      refine ⟨?_, ?_, hfilt⟩
      · have hmem : q ∈ cs.filterMap fun v => match_quality sample v := by
          rw [hf, ← hq']
          rcases foldl_max_mem rest q0 with h | h
          · rw [h]; exact List.mem_cons_self q0 rest
          · exact List.mem_cons_of_mem q0 h
        obtain ⟨v, hv, hm⟩ := List.mem_filterMap.mp hmem
        exact ⟨v, hv, hm⟩
      · intro v hv q' hm
        have : q' ∈ cs.filterMap fun v => match_quality sample v :=
          List.mem_filterMap.mpr ⟨v, hv, hm⟩
        rw [hf] at this
        rw [← hq']
        rcases List.mem_cons.mp this with rfl | h2
        · exact le_foldl_max rest q'
        · exact foldl_max_le_of_mem q0 h2
  · intro hfar
    rw [lookup_variables_eq_filter,
      hnone.mpr fun v hv => ?_]
    obtain ⟨st, en, hd, hdist⟩ := hfar v hv
    rw [match_quality]
    by_cases h1 : fieldMismatch v.location.country (some sample.country) = true
    · rw [if_pos h1]
    · rw [if_neg h1]
      by_cases h2 : fieldMismatch v.location.state sample.state = true
      · rw [if_pos h2]
      · rw [if_neg h2]
        by_cases h3 : fieldMismatch v.location.county sample.county = true
        · rw [if_pos h3]
        · rw [if_neg h3]
          simp [hd, hdist, MAX_DAYS_OFF]

/-- Witness for C1 at the test fixture: among the exact-date candidate
and the one-day-off candidate the maximum score is 0, and
`lookup_variables` returns exactly the candidates scoring 0. -/
theorem lookup_variables_spec_witness :
    maxScore attrsEx [vCountryYear, vOneDayOff] = some 0 ∧
    lookup_variables attrsEx [vCountryYear, vOneDayOff] =
      List.filter (fun v => match_quality attrsEx v = some 0)
        [vCountryYear, vOneDayOff] := by
  refine ⟨by decide, ?_⟩
  exact ((lookup_variables_spec attrsEx [vCountryYear, vOneDayOff]).2.2.1 0
    (by decide)).2.2

lemma sample_attributes_keys_nodup (d : MGSData) (bp : Bioproject)
    (enr : Option Enrichment)
    (h : ((d.attrs bp).map fun p => p.1).Nodup) :
    ((d.sample_attributes bp enr).map fun p => p.1).Nodup :=
  List.Nodup.sublist ((List.filter_sublist _).map _) h

lemma dictUpdate_keys_nodup {old new : List (Sample × SampleAttributes)}
    (ho : (old.map fun p => p.1).Nodup) (hn : (new.map fun p => p.1).Nodup) :
    ((dictUpdate old new).map fun p => p.1).Nodup := by
  unfold dictUpdate
  rw [List.map_append, List.nodup_append]
  refine ⟨List.Nodup.sublist ((List.filter_sublist _).map _) ho, hn, ?_⟩
  intro k hk1 hk2
  rw [List.mem_map] at hk1
  obtain ⟨p, hp, rfl⟩ := hk1
  rw [List.mem_filter, decide_eq_true_eq] at hp
  exact hp.2 (by simpa [List.contains_eq_any_beq] using hk2)

lemma foldl_dictUpdate_keys_nodup (d : MGSData) (enr : Option Enrichment) :
    ∀ (bps : List Bioproject) (acc : List (Sample × SampleAttributes)),
      (∀ bp ∈ bps, ((d.attrs bp).map fun p => p.1).Nodup) →
      (acc.map fun p => p.1).Nodup →
      (((bps.foldl (fun a bp => dictUpdate a (d.sample_attributes bp enr))
          acc).map fun p => p.1)).Nodup := by
  intro bps
  induction bps with
  | nil => intro acc _ hacc; exact hacc
  | cons bp bps ih =>
    intro acc h hacc
    rw [List.foldl_cons]
    exact ih _ (fun b hb => h b (List.mem_cons_of_mem _ hb))
      (dictUpdate_keys_nodup hacc
        (sample_attributes_keys_nodup d bp enr (h bp (List.mem_cons_self _ _))))

/-- C3: `build_model` returns the "no model" sentinel (`none`, not an
error) exactly when no sample across the given bioprojects (filtered by
enrichment) has any matched predictor; otherwise the returned model's
input table has exactly one row per sample present in the union of the
filtered sample attributes over all the given bioprojects. -/
theorem build_model_spec (d : MGSData) (bps : List Bioproject)
    (preds : List Variable) (taxids : Finset Nat) (seed : Nat)
    (enr : Option Enrichment) :
    (build_model d bps preds taxids seed enr = none ↔
      ∀ p ∈ all_sample_attributes d bps enr,
        lookup_variables p.2 preds = []) ∧
    (∀ m, build_model d bps preds taxids seed enr = some m →
      m.data.length = (all_sample_attributes d bps enr).length ∧
      (m.data.map fun r => r.sample) =
        ((all_sample_attributes d bps enr).map fun p => p.1) ∧
      ((∀ bp ∈ bps, ((d.attrs bp).map fun p => p.1).Nodup) →
        (m.data.map fun r => r.sample).Nodup)) := by
  have hcond :
      ((model_rows d bps preds taxids enr).all
        fun r => r.predictors.isEmpty) = true ↔
      ∀ p ∈ all_sample_attributes d bps enr,
        lookup_variables p.2 preds = [] := by
    unfold model_rows
    rw [List.all_eq_true]
    constructor
    · intro h p hp
      obtain ⟨s, a⟩ := p
      have := h _ (List.mem_map_of_mem _ hp)
      rwa [List.isEmpty_iff] at this
    · intro h r hr
      obtain ⟨p, hp, rfl⟩ := List.mem_map.mp hr
      obtain ⟨s, a⟩ := p
      rw [List.isEmpty_iff]
      exact h (s, a) hp
  have hkeys : ((model_rows d bps preds taxids enr).map fun r => r.sample) =
      ((all_sample_attributes d bps enr).map fun p => p.1) := by
    unfold model_rows
    rw [List.map_map]
    apply List.map_congr_left
    rintro ⟨s, a⟩ _
    rfl
  constructor
  · unfold build_model
    by_cases hc2 : ((model_rows d bps preds taxids enr).all
        fun r => r.predictors.isEmpty) = true
    · rw [if_pos hc2]
      exact iff_of_true rfl (hcond.mp hc2)
    · rw [if_neg hc2]
      exact iff_of_false (fun h => Option.noConfusion h)
        fun hall => hc2 (hcond.mpr hall)
  · intro m hm
    unfold build_model at hm
    split at hm
    · cases hm
    · obtain rfl := (Option.some.injEq ..).mp hm
      refine ⟨?_, hkeys, fun hnodup => ?_⟩
      · show (model_rows d bps preds taxids enr).length = _
        unfold model_rows
        rw [List.length_map]
      · have hsame : ((Model.mk (model_rows d bps preds taxids enr) seed none
            none).data.map fun r => r.sample) =
            ((all_sample_attributes d bps enr).map fun p => p.1) := hkeys
        rw [hsame]
        exact foldl_dictUpdate_keys_nodup d enr bps [] hnodup (by simp)

/-- The dataset fixture: one bioproject holding the single test sample
with 100 total reads and 5 viral reads for every taxid set. -/
def mgsEx : MGSData :=
  ⟨fun _ => [("SRR14530726", attrsEx)], fun _ => 100, fun _ _ => 5⟩

/-- The model built from `mgsEx` against the country-year candidate. -/
def modelEx : Model :=
  ⟨[⟨"SRR14530726", 100, 5, [vCountryYear], "Loc"⟩], 1, none, none⟩

/-- Witness for C3 at the dataset fixture: the built model has exactly
one row per sample of the union of the filtered sample attributes. -/
theorem build_model_spec_witness :
    build_model mgsEx ["bp"] [vCountryYear] {142786} 1 none = some modelEx ∧
    modelEx.data.length =
      (all_sample_attributes mgsEx ["bp"] none).length ∧
    (modelEx.data.map fun r => r.sample) =
      ((all_sample_attributes mgsEx ["bp"] none).map fun p => p.1) := by
  refine ⟨by decide, ?_⟩
  have h := (build_model_spec mgsEx ["bp"] [vCountryYear] {142786} 1 none).2
    modelEx (by decide)
  exact ⟨h.1, h.2.1⟩

lemma rows_ne_nil_of_build_model {d : MGSData} {bps : List Bioproject}
    {preds : List Variable} {taxids : Finset Nat} {seed : Nat}
    {enr : Option Enrichment} {m : Model}
    (hm : build_model d bps preds taxids seed enr = some m) :
    m.data ≠ [] := by
  unfold build_model at hm
  split at hm
  · cases hm
  · rename_i hall
    obtain rfl := (Option.some.injEq ..).mp hm
    intro hnil
    apply hall
    have hr : model_rows d bps preds taxids enr = [] := hnil
    rw [hr]
    rfl

/-- C4: for every model returned by `build_model`, the coefficient and
output accessors fail with the state error before `fit_model` has been
called; after `fit_model` completes they both succeed and return
non-empty results — the model moves from the built (unfit) state to the
fit state at `fit_model`. -/
theorem fit_state_machine_spec (d : MGSData) (bps : List Bioproject)
    (preds : List Variable) (taxids : Finset Nat) (seed : Nat)
    (enr : Option Enrichment) (m : Model)
    (hm : build_model d bps preds taxids seed enr = some m)
    (num_samples num_chains : Nat) (hs : 0 < num_samples)
    (hc : 0 < num_chains) :
    m.fit = none ∧ m.output_df = none ∧
    get_coefficients m = .error .notFitted ∧
    get_output_by_sample m = .error .notFitted ∧
    (fit_model m num_samples num_chains).fit ≠ none ∧
    (∃ cs, get_coefficients (fit_model m num_samples num_chains) = .ok cs ∧
      cs ≠ []) ∧
    (∃ os, get_output_by_sample (fit_model m num_samples num_chains) =
      .ok os ∧ os ≠ []) := by
  have hrows : m.data ≠ [] := rows_ne_nil_of_build_model hm
  have hfit : m.fit = none ∧ m.output_df = none := by
    unfold build_model at hm
    split at hm
    · cases hm
    · obtain rfl := (Option.some.injEq ..).mp hm
      exact ⟨rfl, rfl⟩
  have hdraws : posteriorDraws m.random_seed (num_samples * num_chains)
      m.data ≠ [] := by
    unfold posteriorDraws
    intro hnil
    rw [List.flatMap_eq_nil_iff] at hnil
    have h0 : 0 ∈ List.range (num_samples * num_chains) :=
      List.mem_range.mpr (Nat.mul_pos hs hc)
    have := hnil 0 h0
    rw [List.map_eq_nil_iff] at this
    exact hrows this
  refine ⟨hfit.1, hfit.2, ?_, ?_, ?_, ?_, ?_⟩
  · rw [get_coefficients, hfit.1]
  · rw [get_output_by_sample, hfit.2]
  · simp [fit_model]
  · exact ⟨_, by simp [get_coefficients, fit_model], hdraws⟩
  · exact ⟨_, by simp [get_output_by_sample, fit_model], hdraws⟩

/-- Witness for C4 at the dataset fixture: before fitting the accessors
error, after fitting the coefficients are non-empty. -/
theorem fit_state_machine_spec_witness :
    build_model mgsEx ["bp"] [vCountryYear] {142786} 1 none = some modelEx ∧
    get_coefficients modelEx = .error .notFitted ∧
    (∃ cs, get_coefficients (fit_model modelEx 1 1) = .ok cs ∧ cs ≠ []) := by
  refine ⟨by decide, ?_, ?_⟩
  · exact (fit_state_machine_spec mgsEx ["bp"] [vCountryYear] {142786} 1 none
      modelEx (by decide) 1 1 (by decide) (by decide)).2.2.1
  · exact (fit_state_machine_spec mgsEx ["bp"] [vCountryYear] {142786} 1 none
      modelEx (by decide) 1 1 (by decide) (by decide)).2.2.2.2.2.1

end P2RA
